import Mathlib

/-
Verification of the financial projection engine of a home-loan vs rent
simulator (src/app.py): the amortization schedule generator, the
multi-regime income tax calculator, and the year-by-year scenario
simulation loop.  Python float arithmetic is embedded as exact rational
arithmetic over ℚ; every definition mirrors the corresponding code in
src/app.py (line references in the doc comments).
-/

/-- One row of the amortization schedule (app.py lines 96-102). -/
structure AmortPeriod where
  month : ℕ
  emi : ℚ
  interest : ℚ
  principal_paid : ℚ
  balance : ℚ
deriving DecidableEq

/-- The tax regime identifier passed to compute_annual_tax
(strings "old" / "new" in app.py). -/
inductive Regime
| old
| new
deriving DecidableEq

/-- The sidebar tax-regime policy (app.py line 47):
"Old", "New" or "Auto (choose lower)". -/
inductive Policy
| old
| new
| auto
deriving DecidableEq

/-- monthly_emi (app.py lines 76-82): fixed-payment annuity formula,
straight-line when the rate is zero. -/
def monthly_emi (principal annual_rate_percent : ℚ) (tenure_months : ℕ) : ℚ :=
  let r := annual_rate_percent / 100 / 12
  let n := tenure_months
  if r = 0 then principal / n
  else principal * r * (1 + r) ^ n / ((1 + r) ^ n - 1)

/-- One balance update of the amortization loop (app.py lines 91-95):
interest, principal split, decrement, and the 1e-8 clamp to zero. -/
def nextBalance (emi r balance : ℚ) : ℚ :=
  let interest := balance * r
  let principal_paid := emi - interest
  let balance2 := balance - principal_paid
  if balance2 < 1e-8 then 0 else balance2

/-- The amortization loop (app.py lines 90-102), recursing on the number
of remaining months while carrying the running balance and month index. -/
def amortSteps (emi r : ℚ) : ℚ → ℕ → ℕ → List AmortPeriod
  | _, _, 0 => []
  | balance, month, count + 1 =>
    ⟨month, emi, balance * r, emi - balance * r, nextBalance emi r balance⟩ ::
      amortSteps emi r (nextBalance emi r balance) (month + 1) count

/-- amortization_schedule (app.py lines 84-103). -/
def amortization_schedule (principal annual_rate_percent : ℚ) (tenure_months : ℕ) :
    List AmortPeriod :=
  amortSteps (monthly_emi principal annual_rate_percent tenure_months)
    (annual_rate_percent / 100 / 12) principal 1 tenure_months

/-- The slab walk of compute_annual_tax (app.py lines 107-114):
consume the income band by band, accumulating band tax, stopping once
nothing remains. -/
def slabWalk : List (ℚ × ℚ) → ℚ → ℚ
  | [], _ => 0
  | (slab_amount, rate) :: rest, remaining =>
    let taxable := min slab_amount remaining
    max 0 taxable * rate +
      (if remaining - taxable ≤ 0 then 0 else slabWalk rest (remaining - taxable))

/-- The rebate step of compute_annual_tax (app.py lines 116-124). -/
def rebated (regime : Regime) (taxable_income base_tax : ℚ) : ℚ :=
  match regime with
  | Regime.old => if taxable_income ≤ 500000 then base_tax - min base_tax 12500 else base_tax
  | Regime.new => if taxable_income ≤ 700000 then base_tax - min base_tax 25000 else base_tax

/-- The surcharge tiers of compute_annual_tax (app.py lines 128-146). -/
def surcharge_rate (regime : Regime) (taxable_income : ℚ) : ℚ :=
  if 5000000 < taxable_income then
    match regime with
    | Regime.old =>
      if 50000000 < taxable_income then 0.37
      else if 20000000 < taxable_income then 0.25
      else if 10000000 < taxable_income then 0.15
      else 0.10
    | Regime.new =>
      if 20000000 < taxable_income then 0.25
      else if 10000000 < taxable_income then 0.15
      else 0.10
  else 0

/-- compute_annual_tax (app.py lines 105-151): slab walk, rebate,
floor at zero, surcharge, cess. -/
def compute_annual_tax (taxable_income : ℚ) (slabs : List (ℚ × ℚ))
    (regime : Regime) (cess : ℚ) : ℚ :=
  let base_tax := max (rebated regime taxable_income (slabWalk slabs taxable_income)) 0
  let surcharge := base_tax * surcharge_rate regime taxable_income
  let total_tax := base_tax + surcharge
  total_tax * (1 + cess)

/-- The tax pipeline with the rebate step skipped.  Modelled from the
spec phrase (section 8) comparing the rebated tax with what the tax
would be without rebate; identical to compute_annual_tax except that
step 2 (app.py lines 116-124) is omitted. -/
def compute_annual_tax_no_rebate (taxable_income : ℚ) (slabs : List (ℚ × ℚ))
    (regime : Regime) (cess : ℚ) : ℚ :=
  let base_tax := max (slabWalk slabs taxable_income) 0
  let surcharge := base_tax * surcharge_rate regime taxable_income
  let total_tax := base_tax + surcharge
  total_tax * (1 + cess)

/-- TAX_SLABS_OLD (app.py lines 154-159). -/
def TAX_SLABS_OLD : List (ℚ × ℚ) :=
  [(250000, 0.0), (250000, 0.05), (500000, 0.20), (1e12, 0.30)]

/-- TAX_SLABS_NEW (app.py lines 161-168). -/
def TAX_SLABS_NEW : List (ℚ × ℚ) :=
  [(300000, 0.0), (400000, 0.05), (300000, 0.10), (200000, 0.15),
   (300000, 0.20), (1e12, 0.30)]

/-- The slab table the simulation pairs with each regime
(app.py lines 214, 239). -/
def slabs_for : Regime → List (ℚ × ℚ)
  | Regime.old => TAX_SLABS_OLD
  | Regime.new => TAX_SLABS_NEW

/-- Hardcoded constant (app.py line 67). -/
def STANDARD_DEDUCTION_OLD : ℚ := 50000

/-- Hardcoded constant (app.py line 68). -/
def STANDARD_DEDUCTION_NEW : ℚ := 75000

/-- Hardcoded constant (app.py line 69). -/
def SEC_80C_CAP : ℚ := 150000

/-- Hardcoded constant (app.py line 70). -/
def SEC_80CCD1B_CAP : ℚ := 50000

/-- Hardcoded constant (app.py line 71). -/
def SEC_80D_CAP : ℚ := 25000

/-- Hardcoded constant (app.py line 72). -/
def SEC_80CCD2_CAP_PERCENT : ℚ := 10.0

/-- The scalar configuration the sidebar supplies to the simulation
(app.py lines 21-60).  disability_ded is the rupee value selected from
the 80U options dictionary (app.py lines 59-60, 181). -/
structure Config where
  HOUSE_PRICE : ℚ
  LOAN_AMOUNT : ℚ
  LOAN_TENURE_YEARS : ℕ
  LOAN_INTEREST_PERCENT : ℚ
  INITIAL_MONTHLY_RENT : ℚ
  RENT_INCREMENT_PERCENT : ℚ
  INVESTMENT_RETURN_CAGR : ℚ
  INFLATION_PERCENT_PER_YEAR : ℚ
  EMPLOYEE_SALARY_CURRENT : ℚ
  EMPLOYEE_SALARY_INCREMENT_PERCENT_PA : ℚ
  INITIAL_CASH : ℚ
  EXPENSE_PERCENT : ℚ
  tax_regime : Policy
  INTEREST_DEDUCTION_CAP_ANNUAL : ℚ
  HEALTH_EDU_CESS : ℚ
  YEARS : ℕ
  OTHER_80C_ANNUAL : ℚ
  NPS_EMPLOYEE_80CCD1B : ℚ
  NPS_EMPLOYER_PERCENT : ℚ
  HEALTH_80D : ℚ
  HRA_EXEMPTION_ANNUAL : ℚ
  disability_ded : ℚ

/-- down_payment (app.py line 27). -/
def down_payment (cfg : Config) : ℚ := max 0 (cfg.HOUSE_PRICE - cfg.LOAN_AMOUNT)

/-- tenure_months (app.py line 171). -/
def tenure_months (cfg : Config) : ℕ := cfg.LOAN_TENURE_YEARS * 12

/-- am_table (app.py line 172). -/
def am_table (cfg : Config) : List AmortPeriod :=
  amortization_schedule cfg.LOAN_AMOUNT cfg.LOAN_INTEREST_PERCENT (tenure_months cfg)

/-- The amortization rows of simulation year y, zero-based
(app.py lines 185-190): rows start = y*12 up to min((y+1)*12, len). -/
def year_slice (cfg : Config) (y : ℕ) : List AmortPeriod :=
  ((am_table cfg).drop (y * 12)).take 12

/-- interest_y (app.py line 191). -/
def interest_y (cfg : Config) (y : ℕ) : ℚ :=
  ((year_slice cfg y).map AmortPeriod.interest).sum

/-- principal_y (app.py line 192). -/
def principal_y (cfg : Config) (y : ℕ) : ℚ :=
  ((year_slice cfg y).map AmortPeriod.principal_paid).sum

/-- emi_y (app.py line 193). -/
def emi_y (cfg : Config) (y : ℕ) : ℚ :=
  ((year_slice cfg y).map AmortPeriod.emi).sum

/-- annual_rent (app.py line 196). -/
def annual_rent (cfg : Config) (y : ℕ) : ℚ :=
  cfg.INITIAL_MONTHLY_RENT * 12 * (1 + cfg.RENT_INCREMENT_PERCENT / 100) ^ y

/-- The annual_salary loop variable: starts at EMPLOYEE_SALARY_CURRENT
(app.py line 176) and is grown by the increment after each year
(app.py line 386), so year y uses salary from y compounded increments. -/
def annual_salary (cfg : Config) : ℕ → ℚ
  | 0 => cfg.EMPLOYEE_SALARY_CURRENT
  | y + 1 => annual_salary cfg y * (1 + cfg.EMPLOYEE_SALARY_INCREMENT_PERCENT_PA / 100)

/-- ded_80ccd1b (app.py line 199). -/
def ded_80ccd1b (cfg : Config) : ℚ := min SEC_80CCD1B_CAP cfg.NPS_EMPLOYEE_80CCD1B

/-- ded_80ccd2 (app.py line 200). -/
def ded_80ccd2 (cfg : Config) (y : ℕ) : ℚ :=
  min (SEC_80CCD2_CAP_PERCENT / 100 * annual_salary cfg y)
    (cfg.NPS_EMPLOYER_PERCENT / 100 * annual_salary cfg y)

/-- ded_80d (app.py line 201). -/
def ded_80d (cfg : Config) : ℚ := min SEC_80D_CAP cfg.HEALTH_80D

/-- ded_80u (app.py lines 181, 202). -/
def ded_80u (cfg : Config) : ℚ := cfg.disability_ded

/-- hra_loan (app.py line 205): no HRA in the loan scenario. -/
def hra_loan : ℚ := 0

/-- interest_ded (app.py line 206). -/
def interest_ded (cfg : Config) (y : ℕ) : ℚ :=
  min (interest_y cfg y) cfg.INTEREST_DEDUCTION_CAP_ANNUAL

/-- principal_ded (app.py line 207). -/
def principal_ded (cfg : Config) (y : ℕ) : ℚ := principal_y cfg y

/-- ded_80c_loan (app.py line 208). -/
def ded_80c_loan (cfg : Config) (y : ℕ) : ℚ :=
  min SEC_80C_CAP (cfg.OTHER_80C_ANNUAL + principal_ded cfg y)

/-- chvia_ded_loan_old (app.py line 209). -/
def chvia_ded_loan_old (cfg : Config) (y : ℕ) : ℚ :=
  ded_80c_loan cfg y + ded_80ccd1b cfg + ded_80ccd2 cfg y + ded_80d cfg + ded_80u cfg

/-- salary_income_loan_old (app.py line 210). -/
def salary_income_loan_old (cfg : Config) (y : ℕ) : ℚ :=
  annual_salary cfg y - hra_loan - STANDARD_DEDUCTION_OLD

/-- house_prop_loan (app.py line 211). -/
def house_prop_loan (cfg : Config) (y : ℕ) : ℚ := -(interest_ded cfg y)

/-- gross_total_loan_old (app.py line 212). -/
def gross_total_loan_old (cfg : Config) (y : ℕ) : ℚ :=
  salary_income_loan_old cfg y + house_prop_loan cfg y

/-- taxable_loan_old (app.py line 213). -/
def taxable_loan_old (cfg : Config) (y : ℕ) : ℚ :=
  max 0 (gross_total_loan_old cfg y - chvia_ded_loan_old cfg y)

/-- tax_loan_old (app.py line 214). -/
def tax_loan_old (cfg : Config) (y : ℕ) : ℚ :=
  compute_annual_tax (taxable_loan_old cfg y) TAX_SLABS_OLD Regime.old cfg.HEALTH_EDU_CESS

/-- hra_rent (app.py line 217). -/
def hra_rent (cfg : Config) : ℚ := cfg.HRA_EXEMPTION_ANNUAL

/-- ded_80c_rent (app.py lines 219-220): no principal deduction. -/
def ded_80c_rent (cfg : Config) : ℚ := min SEC_80C_CAP (cfg.OTHER_80C_ANNUAL + 0)

/-- chvia_ded_rent_old (app.py line 221). -/
def chvia_ded_rent_old (cfg : Config) (y : ℕ) : ℚ :=
  ded_80c_rent cfg + ded_80ccd1b cfg + ded_80ccd2 cfg y + ded_80d cfg + ded_80u cfg

/-- salary_income_rent_old (app.py line 222). -/
def salary_income_rent_old (cfg : Config) (y : ℕ) : ℚ :=
  annual_salary cfg y - hra_rent cfg - STANDARD_DEDUCTION_OLD

/-- gross_total_rent_old (app.py lines 223-224): house_prop_rent is 0. -/
def gross_total_rent_old (cfg : Config) (y : ℕ) : ℚ :=
  salary_income_rent_old cfg y + 0

/-- taxable_rent_old (app.py line 225). -/
def taxable_rent_old (cfg : Config) (y : ℕ) : ℚ :=
  max 0 (gross_total_rent_old cfg y - chvia_ded_rent_old cfg y)

/-- tax_rent_old (app.py line 226). -/
def tax_rent_old (cfg : Config) (y : ℕ) : ℚ :=
  compute_annual_tax (taxable_rent_old cfg y) TAX_SLABS_OLD Regime.old cfg.HEALTH_EDU_CESS

/-- chvia_ded_new (app.py lines 229-235): only 80CCD(2) applies. -/
def chvia_ded_new (cfg : Config) (y : ℕ) : ℚ := ded_80ccd2 cfg y

/-- salary_income_new (app.py line 236): hra_new is 0. -/
def salary_income_new (cfg : Config) (y : ℕ) : ℚ :=
  annual_salary cfg y - 0 - STANDARD_DEDUCTION_NEW

/-- gross_total_new (app.py line 237): house_prop_new is 0. -/
def gross_total_new (cfg : Config) (y : ℕ) : ℚ :=
  salary_income_new cfg y + 0

/-- taxable_new (app.py line 238). -/
def taxable_new (cfg : Config) (y : ℕ) : ℚ :=
  max 0 (gross_total_new cfg y - chvia_ded_new cfg y)

/-- tax_new (app.py line 239), shared by both scenarios. -/
def tax_new (cfg : Config) (y : ℕ) : ℚ :=
  compute_annual_tax (taxable_new cfg y) TAX_SLABS_NEW Regime.new cfg.HEALTH_EDU_CESS

/-- tax_loan: the regime selection for the loan scenario
(app.py lines 242-253). -/
def tax_loan (cfg : Config) (y : ℕ) : ℚ :=
  match cfg.tax_regime with
  | Policy.old => tax_loan_old cfg y
  | Policy.new => tax_new cfg y
  | Policy.auto => min (tax_loan_old cfg y) (tax_new cfg y)

/-- tax_rent: the regime selection for the rent scenario
(app.py lines 242-254). -/
def tax_rent (cfg : Config) (y : ℕ) : ℚ :=
  match cfg.tax_regime with
  | Policy.old => tax_rent_old cfg y
  | Policy.new => tax_new cfg y
  | Policy.auto => min (tax_rent_old cfg y) (tax_new cfg y)

/-- selected_regime_loan (app.py lines 245, 250, 255). -/
def selected_regime_loan (cfg : Config) (y : ℕ) : Regime :=
  match cfg.tax_regime with
  | Policy.old => Regime.old
  | Policy.new => Regime.new
  | Policy.auto => if tax_loan cfg y = tax_loan_old cfg y then Regime.old else Regime.new

/-- selected_regime_rent (app.py lines 246, 251, 256). -/
def selected_regime_rent (cfg : Config) (y : ℕ) : Regime :=
  match cfg.tax_regime with
  | Policy.old => Regime.old
  | Policy.new => Regime.new
  | Policy.auto => if tax_rent cfg y = tax_rent_old cfg y then Regime.old else Regime.new

/-- in_hand_loan (app.py line 259). -/
def in_hand_loan (cfg : Config) (y : ℕ) : ℚ := annual_salary cfg y - tax_loan cfg y

/-- expenses_loan (app.py line 260). -/
def expenses_loan (cfg : Config) (y : ℕ) : ℚ :=
  cfg.EXPENSE_PERCENT / 100 * in_hand_loan cfg y

/-- remaining_loan (app.py line 261). -/
def remaining_loan (cfg : Config) (y : ℕ) : ℚ :=
  in_hand_loan cfg y - expenses_loan cfg y

/-- investable_loan (app.py line 262). -/
def investable_loan (cfg : Config) (y : ℕ) : ℚ :=
  max 0 (remaining_loan cfg y - emi_y cfg y)

/-- in_hand_rent (app.py line 264). -/
def in_hand_rent (cfg : Config) (y : ℕ) : ℚ := annual_salary cfg y - tax_rent cfg y

/-- expenses_rent (app.py line 265). -/
def expenses_rent (cfg : Config) (y : ℕ) : ℚ :=
  cfg.EXPENSE_PERCENT / 100 * in_hand_rent cfg y

/-- remaining_rent (app.py line 266). -/
def remaining_rent (cfg : Config) (y : ℕ) : ℚ :=
  in_hand_rent cfg y - expenses_rent cfg y

/-- investable_rent (app.py line 267). -/
def investable_rent (cfg : Config) (y : ℕ) : ℚ :=
  max 0 (remaining_rent cfg y - annual_rent cfg y)

/-- The investment_value_loan loop variable: opened at
max(0, INITIAL_CASH - down_payment) (app.py line 177) and compounded
with the year's investable surplus added at year end (app.py line 270).
investment_value_loan cfg y is the balance after y completed years. -/
def investment_value_loan (cfg : Config) : ℕ → ℚ
  | 0 => max 0 (cfg.INITIAL_CASH - down_payment cfg)
  | y + 1 =>
    investment_value_loan cfg y * (1 + cfg.INVESTMENT_RETURN_CAGR / 100) +
      investable_loan cfg y

/-- The investment_value_rent loop variable: opened at INITIAL_CASH
(app.py line 178) and compounded with the year's investable surplus
added at year end (app.py line 271). -/
def investment_value_rent (cfg : Config) : ℕ → ℚ
  | 0 => cfg.INITIAL_CASH
  | y + 1 =>
    investment_value_rent cfg y * (1 + cfg.INVESTMENT_RETURN_CAGR / 100) +
      investable_rent cfg y

/-- The house_value loop variable (app.py lines 179, 272). -/
def house_value (cfg : Config) : ℕ → ℚ
  | 0 => cfg.HOUSE_PRICE
  | y + 1 => house_value cfg y * (1 + cfg.INFLATION_PERCENT_PER_YEAR / 100)

/-- The outstanding loan balance recorded for year y
(app.py lines 275-278). -/
def loan_balance_end (cfg : Config) (y : ℕ) : ℚ :=
  match (am_table cfg)[(y + 1) * 12 - 1]? with
  | some e => e.balance
  | none => 0

/-- net_worth_loan for year y (app.py line 280). -/
def net_worth_loan (cfg : Config) (y : ℕ) : ℚ :=
  investment_value_loan cfg (y + 1) + house_value cfg (y + 1) - loan_balance_end cfg y

/-- net_worth_rent for year y (app.py line 281). -/
def net_worth_rent (cfg : Config) (y : ℕ) : ℚ :=
  investment_value_rent cfg (y + 1)

/-- The closed-form contribution sum claimed for the loan scenario in
spec section 8: the year-(i+1) investable surplus earns CAGR return for
the remaining n-1-i years. -/
def investable_loan_sum (cfg : Config) (n : ℕ) : ℚ :=
  (Finset.range n).sum fun i =>
    investable_loan cfg i * (1 + cfg.INVESTMENT_RETURN_CAGR / 100) ^ (n - 1 - i)

/-- The closed-form contribution sum claimed for the rent scenario. -/
def investable_rent_sum (cfg : Config) (n : ℕ) : ℚ :=
  (Finset.range n).sum fun i =>
    investable_rent cfg i * (1 + cfg.INVESTMENT_RETURN_CAGR / 100) ^ (n - 1 - i)

/-- The clamped balance after k iterations of the amortization loop,
front-iterated with nextBalance. -/
def iterBal (emi r : ℚ) : ℚ → ℕ → ℚ
  | b, 0 => b
  | b, k + 1 => iterBal emi r (nextBalance emi r b) k

/-- The balance recurrence of the amortization loop without the 1e-8
clamp: balance goes to balance*(1+r) - emi each period. -/
def unclampedBal (emi r principal : ℚ) : ℕ → ℚ
  | 0 => principal
  | k + 1 => unclampedBal emi r principal k * (1 + r) - emi

/-- The configuration with only INITIAL_CASH replaced; every other
sidebar input is untouched. -/
def set_initial_cash (cfg : Config) (cash : ℚ) : Config :=
  ⟨cfg.HOUSE_PRICE, cfg.LOAN_AMOUNT, cfg.LOAN_TENURE_YEARS, cfg.LOAN_INTEREST_PERCENT,
   cfg.INITIAL_MONTHLY_RENT, cfg.RENT_INCREMENT_PERCENT, cfg.INVESTMENT_RETURN_CAGR,
   cfg.INFLATION_PERCENT_PER_YEAR, cfg.EMPLOYEE_SALARY_CURRENT,
   cfg.EMPLOYEE_SALARY_INCREMENT_PERCENT_PA, cash, cfg.EXPENSE_PERCENT,
   cfg.tax_regime, cfg.INTEREST_DEDUCTION_CAP_ANNUAL, cfg.HEALTH_EDU_CESS, cfg.YEARS,
   cfg.OTHER_80C_ANNUAL, cfg.NPS_EMPLOYEE_80CCD1B, cfg.NPS_EMPLOYER_PERCENT,
   cfg.HEALTH_80D, cfg.HRA_EXEMPTION_ANNUAL, cfg.disability_ded⟩

/-- The configuration with every scenario-specific tax input replaced:
the HRA exemption (rent scenario) and the loan parameters and interest
cap that feed the loan-scenario deductions.  Everything the NEW-regime
computation reads is untouched. -/
def set_scenario_inputs (cfg : Config) (hra la : ℚ) (lt : ℕ) (li cap : ℚ) : Config :=
  ⟨cfg.HOUSE_PRICE, la, lt, li,
   cfg.INITIAL_MONTHLY_RENT, cfg.RENT_INCREMENT_PERCENT, cfg.INVESTMENT_RETURN_CAGR,
   cfg.INFLATION_PERCENT_PER_YEAR, cfg.EMPLOYEE_SALARY_CURRENT,
   cfg.EMPLOYEE_SALARY_INCREMENT_PERCENT_PA, cfg.INITIAL_CASH, cfg.EXPENSE_PERCENT,
   cfg.tax_regime, cap, cfg.HEALTH_EDU_CESS, cfg.YEARS,
   cfg.OTHER_80C_ANNUAL, cfg.NPS_EMPLOYEE_80CCD1B, cfg.NPS_EMPLOYER_PERCENT,
   cfg.HEALTH_80D, hra, cfg.disability_ded⟩

/-- A minimal all-zero configuration with one rupee of initial cash,
used to exhibit concrete behaviour of the simulation loop. -/
def cfgUnit : Config :=
  ⟨0, 0, 1, 0, 0, 0, 0, 0, 0, 0, 1, 0, Policy.old, 200000, 0, 1, 0, 0, 0, 0, 0, 0⟩

/-- The default-like configuration restricted to Auto regime selection,
used to instantiate the Auto-mode theorems. -/
def cfgAuto : Config :=
  ⟨5000000, 4500000, 7, 12, 15000, 12, 10.5, 6.5, 1450000, 10, 0, 50,
   Policy.auto, 200000, 0.04, 7, 0, 0, 0, 0, 0, 0⟩

/-- The default-like configuration fixed to the NEW regime. -/
def cfgNew : Config :=
  ⟨5000000, 4500000, 7, 12, 15000, 12, 10.5, 6.5, 1450000, 10, 0, 50,
   Policy.new, 200000, 0.04, 7, 0, 0, 0, 0, 0, 0⟩

/-- A configuration whose down payment (5) exceeds its initial cash (0),
used to instantiate the opening-balance clamp theorem. -/
def cfgShort : Config :=
  ⟨5, 0, 1, 0, 0, 0, 0, 0, 0, 0, 0, 0, Policy.old, 200000, 0, 1, 0, 0, 0, 0, 0, 0⟩

theorem amortSteps_payment_split (emi r : ℚ) :
    ∀ (k : ℕ) (b : ℚ) (m : ℕ), ∀ e ∈ amortSteps emi r b m k,
      e.emi = e.interest + e.principal_paid := by
  intro k
  induction k with
  | zero => intro b m e he; simp [amortSteps] at he
  | succ k ih =>
    intro b m e he
    simp only [amortSteps, List.mem_cons] at he
    rcases he with rfl | he
    · simp
    · exact ih _ _ e he

/-- Claim C5: every period of a schedule built from principal ≥ 0,
rate ≥ 0, term ≥ 1 splits its fixed payment exactly into the interest
portion plus the principal portion, hence within the 1e-6 tolerance. -/
theorem schedule_payment_split (principal annual_rate_percent : ℚ) (n : ℕ)
    (hP : 0 ≤ principal) (hr : 0 ≤ annual_rate_percent) (hn : 1 ≤ n) :
    ∀ e ∈ amortization_schedule principal annual_rate_percent n,
      |e.emi - (e.interest + e.principal_paid)| ≤ 1e-6 := by
  intro e he
  have h := amortSteps_payment_split _ _ n principal 1 e he
  rw [h, sub_self, abs_zero]
  norm_num

theorem schedule_payment_split_witness :
    (0:ℚ) ≤ 100 ∧ (0:ℚ) ≤ 0 ∧ 1 ≤ 1 ∧
      (⟨1, 100, 0, 100, 0⟩ : AmortPeriod) ∈ amortization_schedule 100 0 1 ∧
      |(⟨1, 100, 0, 100, 0⟩ : AmortPeriod).emi -
        ((⟨1, 100, 0, 100, 0⟩ : AmortPeriod).interest +
          (⟨1, 100, 0, 100, 0⟩ : AmortPeriod).principal_paid)| ≤ 1e-6 := by
  have hm : (⟨1, 100, 0, 100, 0⟩ : AmortPeriod) ∈ amortization_schedule 100 0 1 := by
    norm_num [amortization_schedule, amortSteps, monthly_emi, nextBalance]
  exact ⟨by norm_num, le_refl 0, le_refl 1, hm,
    schedule_payment_split 100 0 1 (by norm_num) (le_refl 0) (le_refl 1) _ hm⟩

/-- Claim C8: with a zero annual rate the payment is exactly the
straight-line principal / termPeriods. -/
theorem monthly_emi_zero_rate (principal : ℚ) (n : ℕ)
    (hP : 0 ≤ principal) (hn : 1 ≤ n) :
    monthly_emi principal 0 n = principal / n := by
  norm_num [monthly_emi]

theorem monthly_emi_zero_rate_witness :
    (0:ℚ) ≤ 100 ∧ 1 ≤ 4 ∧ monthly_emi 100 0 4 = 100 / ((4:ℕ):ℚ) := by
  exact ⟨by norm_num, by norm_num, monthly_emi_zero_rate 100 4 (by norm_num) (by norm_num)⟩

theorem unclampedBal_closed (emi r P : ℚ) (hr : r ≠ 0) :
    ∀ k : ℕ, unclampedBal emi r P k = P * (1+r)^k - emi * ((1+r)^k - 1) / r := by
  intro k
  induction k with
  | zero => simp [unclampedBal]
  | succ k ih =>
    simp only [unclampedBal, ih]
    field_simp
    ring

theorem unclampedBal_zero_rate (emi P : ℚ) :
    ∀ k : ℕ, unclampedBal emi 0 P k = P - k * emi := by
  intro k
  induction k with
  | zero => simp [unclampedBal]
  | succ k ih =>
    simp only [unclampedBal, ih]
    push_cast
    ring

theorem monthly_emi_nonneg (P rate : ℚ) (n : ℕ) (hP : 0 ≤ P) (hr : 0 ≤ rate) :
    0 ≤ monthly_emi P rate n := by
  simp only [monthly_emi]
  have hr0 : 0 ≤ rate / 100 / 12 := by positivity
  split_ifs with h
  · positivity
  · apply div_nonneg
    · positivity
    · have h1 : (1:ℚ) ≤ 1 + rate / 100 / 12 := by linarith
      have hp : (1:ℚ)^n ≤ (1 + rate / 100 / 12)^n := pow_le_pow_left₀ (by norm_num) h1 n
      rw [one_pow] at hp
      linarith

theorem unclampedBal_final (P rate : ℚ) (n : ℕ) (hn : 1 ≤ n) (hr : 0 ≤ rate) :
    unclampedBal (monthly_emi P rate n) (rate / 100 / 12) P n = 0 := by
  by_cases h0 : rate / 100 / 12 = 0
  · rw [h0, unclampedBal_zero_rate]
    simp only [monthly_emi]
    rw [if_pos h0]
    have hne : ((n:ℚ)) ≠ 0 := Nat.cast_ne_zero.2 (by omega)
    field_simp
  · have hrpos : 0 < rate / 100 / 12 := lt_of_le_of_ne (by positivity) (Ne.symm h0)
    have hpow : 1 < (1 + rate / 100 / 12)^n := by
      calc (1:ℚ) = 1^n := (one_pow n).symm
        _ < (1 + rate / 100 / 12)^n :=
          pow_lt_pow_left₀ (by linarith) (by norm_num) (by omega)
    have hpne : (1 + rate / 100 / 12)^n - 1 ≠ 0 :=
      ne_of_gt (by linarith)
    rw [unclampedBal_closed _ _ _ h0 n]
    simp only [monthly_emi]
    rw [if_neg h0]
    generalize rate / 100 / 12 = r at h0 hrpos hpow hpne ⊢
    field_simp
    ring

theorem iterBal_succ_outer (emi r : ℚ) :
    ∀ (k : ℕ) (b : ℚ),
      iterBal emi r b (k+1) = nextBalance emi r (iterBal emi r b k) := by
  intro k
  induction k with
  | zero => intro b; rfl
  | succ k ih => intro b; exact ih (nextBalance emi r b)

theorem iterBal_cases (emi r P : ℚ) (he : 0 ≤ emi) :
    ∀ k : ℕ, iterBal emi r P k = unclampedBal emi r P k ∨ iterBal emi r P k = 0 := by
  intro k
  induction k with
  | zero => left; rfl
  | succ k ih =>
    rw [iterBal_succ_outer]
    rcases ih with h | h
    · rw [h]
      simp only [nextBalance]
      split_ifs with hc
      · right; rfl
      · left
        simp only [unclampedBal]
        ring
    · rw [h]
      right
      simp only [nextBalance]
      have hc : (0:ℚ) - (emi - 0 * r) < 1e-8 := by
        rw [zero_mul, sub_zero, zero_sub]
        have h8 : (0:ℚ) < 1e-8 := by norm_num
        linarith
      rw [if_pos hc]

theorem amortSteps_getLast_balance (emi r : ℚ) :
    ∀ (k : ℕ) (b : ℚ) (m : ℕ) (e : AmortPeriod),
      (amortSteps emi r b m (k+1)).getLast? = some e →
      e.balance = iterBal emi r b (k+1) := by
  intro k
  induction k with
  | zero =>
    intro b m e h
    simp only [amortSteps, List.getLast?_singleton] at h
    injection h with h2
    rw [← h2]
    rfl
  | succ k ih =>
    intro b m e h
    have htail : amortSteps emi r (nextBalance emi r b) (m+1) (k+1) =
        ⟨m+1, emi, nextBalance emi r b * r, emi - nextBalance emi r b * r,
          nextBalance emi r (nextBalance emi r b)⟩ ::
          amortSteps emi r (nextBalance emi r (nextBalance emi r b)) (m+2) k := rfl
    have hstep : amortSteps emi r b m (k+1+1) =
        ⟨m, emi, b * r, emi - b * r, nextBalance emi r b⟩ ::
          amortSteps emi r (nextBalance emi r b) (m+1) (k+1) := rfl
    rw [hstep, htail, List.getLast?_cons_cons, ← htail] at h
    rw [ih (nextBalance emi r b) (m+1) e h]
    rfl

/-- Claim C6: for principal ≥ 0, annual rate ≥ 0 and term ≥ 1, the
balance recorded in the final period of the generated schedule is
within 1e-6 of zero (it is exactly zero in exact arithmetic, thanks to
the closed-form annuity payment and the 1e-8 clamp). -/
theorem schedule_final_balance (principal annual_rate_percent : ℚ) (n : ℕ)
    (e : AmortPeriod) (hP : 0 ≤ principal) (hr : 0 ≤ annual_rate_percent) (hn : 1 ≤ n)
    (hlast : (amortization_schedule principal annual_rate_percent n).getLast? = some e) :
    |e.balance| ≤ 1e-6 := by
  obtain ⟨k, rfl⟩ : ∃ k, n = k + 1 := ⟨n - 1, by omega⟩
  have hb : e.balance = iterBal (monthly_emi principal annual_rate_percent (k+1))
      (annual_rate_percent / 100 / 12) principal (k+1) :=
    amortSteps_getLast_balance _ _ k principal 1 e hlast
  have hemi : 0 ≤ monthly_emi principal annual_rate_percent (k+1) :=
    monthly_emi_nonneg _ _ _ hP hr
  have hub : unclampedBal (monthly_emi principal annual_rate_percent (k+1))
      (annual_rate_percent / 100 / 12) principal (k+1) = 0 :=
    unclampedBal_final principal annual_rate_percent (k+1) (by omega) hr
  rcases iterBal_cases _ _ principal hemi (k+1) with h | h
  · rw [hb, h, hub]
    norm_num
  · rw [hb, h]
    norm_num

theorem schedule_final_balance_witness :
    (0:ℚ) ≤ 100 ∧ (0:ℚ) ≤ 0 ∧ 1 ≤ 1 ∧
      (amortization_schedule 100 0 1).getLast? = some ⟨1, 100, 0, 100, 0⟩ ∧
      |(⟨1, 100, 0, 100, 0⟩ : AmortPeriod).balance| ≤ 1e-6 := by
  have hl : (amortization_schedule 100 0 1).getLast? = some ⟨1, 100, 0, 100, 0⟩ := by
    norm_num [amortization_schedule, amortSteps, monthly_emi, nextBalance]
  exact ⟨by norm_num, le_refl 0, le_refl 1, hl,
    schedule_final_balance 100 0 1 _ (by norm_num) (le_refl 0) (le_refl 1) hl⟩

theorem sub_min_eq_max (B R : ℚ) : B - min B R = max (B - R) 0 := by
  rcases le_total B R with h | h
  · rw [min_eq_left h, max_eq_right (show B - R ≤ (0:ℚ) by linarith), sub_self]
  · rw [min_eq_right h, max_eq_left (show (0:ℚ) ≤ B - R by linarith)]

theorem slabWalk_nonneg : ∀ (slabs : List (ℚ × ℚ)), (∀ p ∈ slabs, 0 ≤ p.2) →
    ∀ remaining : ℚ, 0 ≤ slabWalk slabs remaining := by
  intro slabs
  induction slabs with
  | nil => intro _ r; simp [slabWalk]
  | cons p rest ih =>
    intro hp r
    obtain ⟨a, rate⟩ := p
    have hrate : 0 ≤ rate := hp (a, rate) (List.mem_cons_self _ _)
    have hrest : ∀ q ∈ rest, 0 ≤ q.2 := fun q hq => hp q (List.mem_cons_of_mem _ hq)
    simp only [slabWalk]
    have h1 : 0 ≤ max 0 (min a r) * rate := mul_nonneg (le_max_left 0 _) hrate
    split_ifs with h
    · linarith
    · have h2 := ih hrest (r - min a r)
      linarith

theorem slabWalk_mono : ∀ (slabs : List (ℚ × ℚ)), (∀ p ∈ slabs, 0 ≤ p.2) →
    ∀ r1 r2 : ℚ, r1 ≤ r2 → slabWalk slabs r1 ≤ slabWalk slabs r2 := by
  intro slabs
  induction slabs with
  | nil => intro _ r1 r2 _; simp [slabWalk]
  | cons p rest ih =>
    intro hp r1 r2 h
    obtain ⟨a, rate⟩ := p
    have hrate : 0 ≤ rate := hp (a, rate) (List.mem_cons_self _ _)
    have hrest : ∀ q ∈ rest, 0 ≤ q.2 := fun q hq => hp q (List.mem_cons_of_mem _ hq)
    simp only [slabWalk]
    have hterm : max 0 (min a r1) * rate ≤ max 0 (min a r2) * rate :=
      mul_le_mul_of_nonneg_right (max_le_max (le_refl 0) (min_le_min (le_refl a) h)) hrate
    have hrem : r1 - min a r1 ≤ r2 - min a r2 := by
      rw [min_comm a r1, sub_min_eq_max, min_comm a r2, sub_min_eq_max]
      exact max_le_max (by linarith) (le_refl 0)
    split_ifs with h1 h2
    · linarith
    · have h0 := slabWalk_nonneg rest hrest (r2 - min a r2)
      linarith
    · linarith
    · have h3 := ih hrest (r1 - min a r1) (r2 - min a r2) hrem
      linarith

theorem rebated_floor_mono (reg : Regime) (I1 I2 B1 B2 : ℚ)
    (hB1 : 0 ≤ B1) (hB : B1 ≤ B2) (hI : I1 ≤ I2) :
    max (rebated reg I1 B1) 0 ≤ max (rebated reg I2 B2) 0 := by
  have key12 : B1 - min B1 12500 ≤ B2 - min B2 12500 := by
    rw [sub_min_eq_max, sub_min_eq_max]
    exact max_le_max (by linarith) (le_refl 0)
  have key25 : B1 - min B1 25000 ≤ B2 - min B2 25000 := by
    rw [sub_min_eq_max, sub_min_eq_max]
    exact max_le_max (by linarith) (le_refl 0)
  have hmin12 : 0 ≤ min B1 (12500:ℚ) := le_min hB1 (by norm_num)
  have hmin25 : 0 ≤ min B1 (25000:ℚ) := le_min hB1 (by norm_num)
  cases reg <;> simp only [rebated] <;> split_ifs with h1 h2 <;>
    first
      | exact max_le_max key12 (le_refl 0)
      | exact max_le_max key25 (le_refl 0)
      | exact max_le_max (by linarith) (le_refl 0)

theorem surcharge_rate_nonneg (reg : Regime) (I : ℚ) : 0 ≤ surcharge_rate reg I := by
  cases reg <;> simp only [surcharge_rate] <;> split_ifs <;> norm_num

theorem surcharge_rate_mono (reg : Regime) (I1 I2 : ℚ) (h : I1 ≤ I2) :
    surcharge_rate reg I1 ≤ surcharge_rate reg I2 := by
  cases reg <;> simp only [surcharge_rate] <;> split_ifs <;> linarith

theorem compute_annual_tax_mono (slabs : List (ℚ × ℚ)) (reg : Regime) (cess I1 I2 : ℚ)
    (hs : ∀ p ∈ slabs, 0 ≤ p.2) (hc : 0 ≤ cess) (h : I1 ≤ I2) :
    compute_annual_tax I1 slabs reg cess ≤ compute_annual_tax I2 slabs reg cess := by
  have hb1 := slabWalk_nonneg slabs hs I1
  have hbm := slabWalk_mono slabs hs I1 I2 h
  have hA : max (rebated reg I1 (slabWalk slabs I1)) 0 ≤
      max (rebated reg I2 (slabWalk slabs I2)) 0 :=
    rebated_floor_mono reg I1 I2 _ _ hb1 hbm h
  have hA2 : (0:ℚ) ≤ max (rebated reg I2 (slabWalk slabs I2)) 0 := le_max_right _ 0
  have hs1 := surcharge_rate_nonneg reg I1
  have hsm := surcharge_rate_mono reg I1 I2 h
  simp only [compute_annual_tax]
  have key : max (rebated reg I1 (slabWalk slabs I1)) 0 * (1 + surcharge_rate reg I1) ≤
      max (rebated reg I2 (slabWalk slabs I2)) 0 * (1 + surcharge_rate reg I2) :=
    mul_le_mul hA (by linarith) (by linarith) hA2
  have e1 : ∀ A s : ℚ, A + A * s = A * (1 + s) := fun A s => by ring
  rw [e1, e1]
  exact mul_le_mul_of_nonneg_right key (by linarith)

/-- Claim C2: for a fixed regime (with its fixed slab table) and a
fixed nonnegative cess, the computed tax is monotonically non-decreasing
in taxable income: no incomes I1 < I2 (both nonnegative) give
tax(I1) > tax(I2). -/
theorem tax_monotone_in_income (reg : Regime) (cess I1 I2 : ℚ)
    (hc : 0 ≤ cess) (h0 : 0 ≤ I1) (h12 : I1 < I2) :
    compute_annual_tax I1 (slabs_for reg) reg cess ≤
      compute_annual_tax I2 (slabs_for reg) reg cess := by
  have hs : ∀ p ∈ slabs_for reg, 0 ≤ p.2 := by
    cases reg <;> norm_num [slabs_for, TAX_SLABS_OLD, TAX_SLABS_NEW]
  exact compute_annual_tax_mono _ reg cess I1 I2 hs hc (le_of_lt h12)

theorem tax_monotone_in_income_witness :
    (0:ℚ) ≤ 0 ∧ (0:ℚ) ≤ 0 ∧ (0:ℚ) < 1 ∧
      compute_annual_tax 0 (slabs_for Regime.old) Regime.old 0 ≤
        compute_annual_tax 1 (slabs_for Regime.old) Regime.old 0 :=
  ⟨le_refl 0, le_refl 0, by norm_num,
    tax_monotone_in_income Regime.old 0 0 1 (le_refl 0) (le_refl 0) (by norm_num)⟩

theorem slabWalk_old_top (I : ℚ) (h1 : 1000000 ≤ I) (h2 : I ≤ 1000000 + 1e12) :
    slabWalk TAX_SLABS_OLD I = 112500 + (I - 1000000) * 0.30 := by
  by_cases hI : I ≤ 1000000
  · have hIeq : I = 1000000 := le_antisymm hI h1
    subst hIeq
    norm_num [slabWalk, TAX_SLABS_OLD, min_def, max_def]
  · push_neg at hI
    simp only [TAX_SLABS_OLD, slabWalk]
    rw [min_eq_left (show (250000:ℚ) ≤ I by linarith),
        if_neg (not_le.2 (show (0:ℚ) < I - 250000 by linarith)),
        min_eq_left (show (250000:ℚ) ≤ I - 250000 by linarith),
        if_neg (not_le.2 (show (0:ℚ) < I - 250000 - 250000 by linarith)),
        min_eq_left (show (500000:ℚ) ≤ I - 250000 - 250000 by linarith),
        if_neg (not_le.2 (show (0:ℚ) < I - 250000 - 250000 - 500000 by linarith)),
        min_eq_right (show I - 250000 - 250000 - 500000 ≤ (1e12:ℚ) by linarith),
        if_pos (show I - 250000 - 250000 - 500000 - (I - 250000 - 250000 - 500000) ≤ (0:ℚ)
          by linarith),
        max_eq_right (show (0:ℚ) ≤ I - 250000 - 250000 - 500000 by linarith)]
    norm_num [max_def]
    ring

theorem slabWalk_new_top (J : ℚ) (h1 : 1500000 ≤ J) (h2 : J ≤ 1500000 + 1e12) :
    slabWalk TAX_SLABS_NEW J = 140000 + (J - 1500000) * 0.30 := by
  by_cases hJ : J ≤ 1500000
  · have hJeq : J = 1500000 := le_antisymm hJ h1
    subst hJeq
    norm_num [slabWalk, TAX_SLABS_NEW, min_def, max_def]
  · push_neg at hJ
    simp only [TAX_SLABS_NEW, slabWalk]
    rw [min_eq_left (show (300000:ℚ) ≤ J by linarith),
        if_neg (not_le.2 (show (0:ℚ) < J - 300000 by linarith)),
        min_eq_left (show (400000:ℚ) ≤ J - 300000 by linarith),
        if_neg (not_le.2 (show (0:ℚ) < J - 300000 - 400000 by linarith)),
        min_eq_left (show (300000:ℚ) ≤ J - 300000 - 400000 by linarith),
        if_neg (not_le.2 (show (0:ℚ) < J - 300000 - 400000 - 300000 by linarith)),
        min_eq_left (show (200000:ℚ) ≤ J - 300000 - 400000 - 300000 by linarith),
        if_neg (not_le.2 (show (0:ℚ) < J - 300000 - 400000 - 300000 - 200000 by linarith)),
        min_eq_left (show (300000:ℚ) ≤ J - 300000 - 400000 - 300000 - 200000 by linarith),
        if_neg (not_le.2
          (show (0:ℚ) < J - 300000 - 400000 - 300000 - 200000 - 300000 by linarith)),
        min_eq_right
          (show J - 300000 - 400000 - 300000 - 200000 - 300000 ≤ (1e12:ℚ) by linarith),
        if_pos (show J - 300000 - 400000 - 300000 - 200000 - 300000 -
          (J - 300000 - 400000 - 300000 - 200000 - 300000) ≤ (0:ℚ) by linarith),
        max_eq_right
          (show (0:ℚ) ≤ J - 300000 - 400000 - 300000 - 200000 - 300000 by linarith)]
    norm_num [max_def]
    ring

/-- Claim C4 counterexample: the final band is NOT an unbounded
"and above" band.  Two incomes one million apart, both beyond the final
band's cumulative lower threshold (1000000 for the OLD table), carry
identical slab tax, and the slab tax differs from the value the claimed
30 percent marginal rate would give. -/
theorem final_band_not_unbounded :
    slabWalk TAX_SLABS_OLD (1000000 + 1e12 + 1000000) =
      slabWalk TAX_SLABS_OLD (1000000 + 1e12) ∧
    slabWalk TAX_SLABS_OLD (1000000 + 1e12 + 1000000) ≠
      112500 + ((1000000 + 1e12 + 1000000) - 1000000) * 0.30 := by
  constructor <;> norm_num [slabWalk, TAX_SLABS_OLD, min_def, max_def]

/-- Claim C4 amended: income exceeding the cumulative lower threshold
of the final band is taxed at the final band's 30 percent marginal rate
only up to the band's 1e12 width; the walk simply stops once the table
is exhausted, so income beyond threshold + 1e12 adds no tax. -/
theorem final_band_marginal_rate (I J : ℚ)
    (h1 : 1000000 ≤ I) (h2 : I ≤ 1000000 + 1e12)
    (h3 : 1500000 ≤ J) (h4 : J ≤ 1500000 + 1e12) :
    slabWalk TAX_SLABS_OLD I = 112500 + (I - 1000000) * 0.30 ∧
    slabWalk TAX_SLABS_NEW J = 140000 + (J - 1500000) * 0.30 :=
  ⟨slabWalk_old_top I h1 h2, slabWalk_new_top J h3 h4⟩

theorem final_band_marginal_rate_witness :
    (1000000:ℚ) ≤ 2000000 ∧ (2000000:ℚ) ≤ 1000000 + 1e12 ∧
    (1500000:ℚ) ≤ 2000000 ∧ (2000000:ℚ) ≤ 1500000 + 1e12 ∧
    (slabWalk TAX_SLABS_OLD 2000000 = 112500 + (2000000 - 1000000) * 0.30 ∧
      slabWalk TAX_SLABS_NEW 2000000 = 140000 + (2000000 - 1500000) * 0.30) :=
  ⟨by norm_num, by norm_num, by norm_num, by norm_num,
    final_band_marginal_rate 2000000 2000000 (by norm_num) (by norm_num)
      (by norm_num) (by norm_num)⟩

/-- Claim C7: under the OLD regime the rebate only ever lowers the tax
relative to the pipeline without the rebate step, and at the boundary
income 500000 with the OLD slab table the tax is exactly zero. -/
theorem old_rebate_boundary (I cess : ℚ) (hc : 0 ≤ cess) :
    compute_annual_tax I TAX_SLABS_OLD Regime.old cess ≤
      compute_annual_tax_no_rebate I TAX_SLABS_OLD Regime.old cess ∧
    compute_annual_tax 500000 TAX_SLABS_OLD Regime.old cess = 0 := by
  constructor
  · have hs : ∀ p ∈ TAX_SLABS_OLD, (0:ℚ) ≤ p.2 := by norm_num [TAX_SLABS_OLD]
    have hb := slabWalk_nonneg TAX_SLABS_OLD hs I
    have hreb : rebated Regime.old I (slabWalk TAX_SLABS_OLD I) ≤ slabWalk TAX_SLABS_OLD I := by
      simp only [rebated]
      split_ifs with h
      · have hm : 0 ≤ min (slabWalk TAX_SLABS_OLD I) (12500:ℚ) := le_min hb (by norm_num)
        linarith
      · exact le_refl _
    have hA : max (rebated Regime.old I (slabWalk TAX_SLABS_OLD I)) 0 ≤
        max (slabWalk TAX_SLABS_OLD I) 0 := max_le_max hreb (le_refl 0)
    have hs0 := surcharge_rate_nonneg Regime.old I
    simp only [compute_annual_tax, compute_annual_tax_no_rebate]
    have key : max (rebated Regime.old I (slabWalk TAX_SLABS_OLD I)) 0 *
        (1 + surcharge_rate Regime.old I) ≤
        max (slabWalk TAX_SLABS_OLD I) 0 * (1 + surcharge_rate Regime.old I) :=
      mul_le_mul_of_nonneg_right hA (by linarith)
    have e1 : ∀ A s : ℚ, A + A * s = A * (1 + s) := fun A s => by ring
    rw [e1, e1]
    exact mul_le_mul_of_nonneg_right key (by linarith)
  · norm_num [compute_annual_tax, slabWalk, TAX_SLABS_OLD, rebated, surcharge_rate,
      min_def, max_def]

theorem old_rebate_boundary_witness :
    (0:ℚ) ≤ 0 ∧
    (compute_annual_tax 600000 TAX_SLABS_OLD Regime.old 0 ≤
      compute_annual_tax_no_rebate 600000 TAX_SLABS_OLD Regime.old 0 ∧
    compute_annual_tax 500000 TAX_SLABS_OLD Regime.old 0 = 0) :=
  ⟨le_refl 0, old_rebate_boundary 600000 0 (le_refl 0)⟩

theorem compound_rec_closed (B c : ℚ) (f iv : ℕ → ℚ) (h0 : iv 0 = B)
    (hrec : ∀ y, iv (y+1) = iv y * (1+c) + f y) :
    ∀ n : ℕ, iv n = B * (1+c)^n +
      (Finset.range n).sum (fun i => f i * (1+c)^(n - 1 - i)) := by
  intro n
  induction n with
  | zero => simpa using h0
  | succ n ih =>
    rw [hrec n, ih, Finset.sum_range_succ]
    have hcong : ∀ i ∈ Finset.range n,
        f i * (1+c)^(n + 1 - 1 - i) = f i * (1+c)^(n - 1 - i) * (1+c) := by
      intro i hi
      rw [Finset.mem_range] at hi
      have hexp : n + 1 - 1 - i = (n - 1 - i) + 1 := by omega
      rw [hexp, pow_succ]
      ring
    rw [Finset.sum_congr rfl hcong, ← Finset.sum_mul]
    have hlast : n + 1 - 1 - n = 0 := by omega
    rw [hlast, pow_zero]
    ring

/-- Claim C1 (amended): each scenario's investment balance obeys the
year recurrence inv(y+1) = inv(y)*(1+cagr) + investable(y) with
contributions earning no return in their contribution year, and the
closed form for year n is the contribution sum PLUS the opening balance
compounded for n years (the opening-balance term is missing from the
claim as stated). -/
theorem investment_closed_form (cfg : Config) (n : ℕ) :
    (∀ y, investment_value_loan cfg (y+1) =
      investment_value_loan cfg y * (1 + cfg.INVESTMENT_RETURN_CAGR / 100) +
        investable_loan cfg y) ∧
    (∀ y, investment_value_rent cfg (y+1) =
      investment_value_rent cfg y * (1 + cfg.INVESTMENT_RETURN_CAGR / 100) +
        investable_rent cfg y) ∧
    investment_value_loan cfg n =
      max 0 (cfg.INITIAL_CASH - down_payment cfg) *
        (1 + cfg.INVESTMENT_RETURN_CAGR / 100)^n + investable_loan_sum cfg n ∧
    investment_value_rent cfg n =
      cfg.INITIAL_CASH * (1 + cfg.INVESTMENT_RETURN_CAGR / 100)^n +
        investable_rent_sum cfg n := by
  refine ⟨fun y => rfl, fun y => rfl, ?_, ?_⟩
  · exact compound_rec_closed _ _ _ _ rfl (fun y => rfl) n
  · exact compound_rec_closed _ _ _ _ rfl (fun y => rfl) n

/-- Claim C1 counterexample: with a one-rupee opening balance, zero CAGR
and zero surpluses, the simulated rent-scenario balance after year one
is 1 while the claimed contribution-only sum is 0, so the closed form as
stated (without the compounded opening-balance term) fails. -/
theorem investment_closed_form_counterexample :
    investment_value_rent cfgUnit 1 ≠ investable_rent_sum cfgUnit 1 := by
  norm_num [investment_value_rent, investable_rent_sum, investable_rent, remaining_rent,
    in_hand_rent, expenses_rent, annual_rent, annual_salary, tax_rent, cfgUnit,
    tax_rent_old, taxable_rent_old, gross_total_rent_old, salary_income_rent_old,
    chvia_ded_rent_old, ded_80c_rent, ded_80ccd1b, ded_80ccd2, ded_80d, ded_80u, hra_rent,
    compute_annual_tax, slabWalk, TAX_SLABS_OLD, rebated, surcharge_rate,
    STANDARD_DEDUCTION_OLD, SEC_80C_CAP, SEC_80CCD1B_CAP, SEC_80D_CAP,
    SEC_80CCD2_CAP_PERCENT, min_def, max_def]

/-- Claim C3: under the AUTO policy the selected tax of each scenario is
the minimum of the OLD-regime and NEW-regime taxes, and the recorded
label is the regime that produced that minimum with ties going to OLD. -/
theorem auto_regime_selection (cfg : Config) (y : ℕ) (h : cfg.tax_regime = Policy.auto) :
    tax_loan cfg y = min (tax_loan_old cfg y) (tax_new cfg y) ∧
    tax_rent cfg y = min (tax_rent_old cfg y) (tax_new cfg y) ∧
    selected_regime_loan cfg y =
      (if tax_loan_old cfg y ≤ tax_new cfg y then Regime.old else Regime.new) ∧
    selected_regime_rent cfg y =
      (if tax_rent_old cfg y ≤ tax_new cfg y then Regime.old else Regime.new) := by
  refine ⟨by simp only [tax_loan, h], by simp only [tax_rent, h], ?_, ?_⟩
  · simp only [selected_regime_loan, tax_loan, h]
    rcases le_or_lt (tax_loan_old cfg y) (tax_new cfg y) with hle | hlt
    · rw [min_eq_left hle, if_pos rfl, if_pos hle]
    · rw [min_eq_right (le_of_lt hlt), if_neg (ne_of_lt hlt), if_neg (not_le.2 hlt)]
  · simp only [selected_regime_rent, tax_rent, h]
    rcases le_or_lt (tax_rent_old cfg y) (tax_new cfg y) with hle | hlt
    · rw [min_eq_left hle, if_pos rfl, if_pos hle]
    · rw [min_eq_right (le_of_lt hlt), if_neg (ne_of_lt hlt), if_neg (not_le.2 hlt)]

theorem auto_regime_selection_witness :
    cfgAuto.tax_regime = Policy.auto ∧
    (tax_loan cfgAuto 0 = min (tax_loan_old cfgAuto 0) (tax_new cfgAuto 0) ∧
     tax_rent cfgAuto 0 = min (tax_rent_old cfgAuto 0) (tax_new cfgAuto 0) ∧
     selected_regime_loan cfgAuto 0 =
       (if tax_loan_old cfgAuto 0 ≤ tax_new cfgAuto 0 then Regime.old else Regime.new) ∧
     selected_regime_rent cfgAuto 0 =
       (if tax_rent_old cfgAuto 0 ≤ tax_new cfgAuto 0 then Regime.old else Regime.new)) :=
  ⟨rfl, auto_regime_selection cfgAuto 0 rfl⟩

theorem annual_salary_scenario_inputs (cfg : Config) (hra la : ℚ) (lt : ℕ) (li cap : ℚ) :
    ∀ y, annual_salary (set_scenario_inputs cfg hra la lt li cap) y = annual_salary cfg y := by
  intro y
  induction y with
  | zero => rfl
  | succ y ih =>
    simp only [annual_salary, ih]
    rfl

theorem tax_new_scenario_inputs (cfg : Config) (hra la : ℚ) (lt : ℕ) (li cap : ℚ) (y : ℕ) :
    tax_new (set_scenario_inputs cfg hra la lt li cap) y = tax_new cfg y := by
  simp only [tax_new, taxable_new, gross_total_new, salary_income_new, chvia_ded_new,
    ded_80ccd2, annual_salary_scenario_inputs]
  rfl

/-- Claim C9: when the NEW regime is in effect for a year (fixed NEW
policy, or AUTO with NEW winning for both scenarios) the loan and rent
scenarios pay exactly the same tax that year; the NEW-regime tax ignores
the scenario-specific inputs (HRA exemption, loan amount/tenure/rate and
the interest cap) and the NEW taxable income is just salary minus the
NEW standard deduction minus the 80CCD(2) deduction, floored at zero. -/
theorem new_regime_scenario_independent (cfg : Config) (y : ℕ)
    (h : cfg.tax_regime = Policy.new ∨
      (cfg.tax_regime = Policy.auto ∧ selected_regime_loan cfg y = Regime.new ∧
        selected_regime_rent cfg y = Regime.new)) :
    tax_loan cfg y = tax_rent cfg y ∧
    (∀ (hra la : ℚ) (lt : ℕ) (li cap : ℚ),
      tax_new (set_scenario_inputs cfg hra la lt li cap) y = tax_new cfg y) ∧
    taxable_new cfg y =
      max 0 (annual_salary cfg y - STANDARD_DEDUCTION_NEW - ded_80ccd2 cfg y) := by
  refine ⟨?_, fun hra la lt li cap => tax_new_scenario_inputs cfg hra la lt li cap y, ?_⟩
  · rcases h with h | ⟨h, hl, hr⟩
    · simp only [tax_loan, tax_rent, h]
    · simp only [selected_regime_loan, h] at hl
      simp only [selected_regime_rent, h] at hr
      simp only [tax_loan, tax_rent, h]
      have h1 : min (tax_loan_old cfg y) (tax_new cfg y) = tax_new cfg y := by
        by_cases hc : tax_loan cfg y = tax_loan_old cfg y
        · rw [if_pos hc] at hl
          simp at hl
        · simp only [tax_loan, h] at hc
          rcases min_choice (tax_loan_old cfg y) (tax_new cfg y) with hm | hm
          · exact absurd hm hc
          · exact hm
      have h2 : min (tax_rent_old cfg y) (tax_new cfg y) = tax_new cfg y := by
        by_cases hc : tax_rent cfg y = tax_rent_old cfg y
        · rw [if_pos hc] at hr
          simp at hr
        · simp only [tax_rent, h] at hc
          rcases min_choice (tax_rent_old cfg y) (tax_new cfg y) with hm | hm
          · exact absurd hm hc
          · exact hm
      rw [h1, h2]
  · simp only [taxable_new, gross_total_new, salary_income_new, chvia_ded_new]
    congr 1
    ring

theorem new_regime_scenario_independent_witness :
    (cfgNew.tax_regime = Policy.new ∨
      (cfgNew.tax_regime = Policy.auto ∧ selected_regime_loan cfgNew 0 = Regime.new ∧
        selected_regime_rent cfgNew 0 = Regime.new)) ∧
    (tax_loan cfgNew 0 = tax_rent cfgNew 0 ∧
     (∀ (hra la : ℚ) (lt : ℕ) (li cap : ℚ),
       tax_new (set_scenario_inputs cfgNew hra la lt li cap) 0 = tax_new cfgNew 0) ∧
     taxable_new cfgNew 0 =
       max 0 (annual_salary cfgNew 0 - STANDARD_DEDUCTION_NEW - ded_80ccd2 cfgNew 0)) :=
  ⟨Or.inl rfl, new_regime_scenario_independent cfgNew 0 (Or.inl rfl)⟩

theorem annual_salary_cash (cfg : Config) (x : ℚ) :
    ∀ y, annual_salary (set_initial_cash cfg x) y = annual_salary cfg y := by
  intro y
  induction y with
  | zero => rfl
  | succ y ih =>
    simp only [annual_salary, ih]
    rfl

theorem tax_loan_old_cash (cfg : Config) (x : ℚ) (y : ℕ) :
    tax_loan_old (set_initial_cash cfg x) y = tax_loan_old cfg y := by
  simp only [tax_loan_old, taxable_loan_old, gross_total_loan_old, salary_income_loan_old,
    house_prop_loan, interest_ded, interest_y, year_slice, am_table, tenure_months,
    chvia_ded_loan_old, ded_80c_loan, principal_ded, principal_y, ded_80ccd1b, ded_80ccd2,
    ded_80d, ded_80u, annual_salary_cash]
  rfl

theorem tax_new_cash (cfg : Config) (x : ℚ) (y : ℕ) :
    tax_new (set_initial_cash cfg x) y = tax_new cfg y := by
  simp only [tax_new, taxable_new, gross_total_new, salary_income_new, chvia_ded_new,
    ded_80ccd2, annual_salary_cash]
  rfl

theorem tax_loan_cash (cfg : Config) (x : ℚ) (y : ℕ) :
    tax_loan (set_initial_cash cfg x) y = tax_loan cfg y := by
  have hpol : (set_initial_cash cfg x).tax_regime = cfg.tax_regime := rfl
  rcases htr : cfg.tax_regime <;>
    simp only [tax_loan, hpol, htr, tax_loan_old_cash, tax_new_cash]

theorem investable_loan_cash (cfg : Config) (x : ℚ) (y : ℕ) :
    investable_loan (set_initial_cash cfg x) y = investable_loan cfg y := by
  simp only [investable_loan, remaining_loan, in_hand_loan, expenses_loan, tax_loan_cash,
    annual_salary_cash, emi_y, year_slice, am_table, tenure_months]
  rfl

theorem investment_value_loan_cash (cfg : Config) (x : ℚ)
    (h : max 0 (x - down_payment cfg) = max 0 (cfg.INITIAL_CASH - down_payment cfg)) :
    ∀ y, investment_value_loan (set_initial_cash cfg x) y = investment_value_loan cfg y := by
  intro y
  induction y with
  | zero => exact h
  | succ y ih =>
    simp only [investment_value_loan, ih, investable_loan_cash]
    rfl

theorem house_value_cash (cfg : Config) (x : ℚ) :
    ∀ y, house_value (set_initial_cash cfg x) y = house_value cfg y := by
  intro y
  induction y with
  | zero => rfl
  | succ y ih =>
    simp only [house_value, ih]
    rfl

theorem net_worth_loan_cash (cfg : Config) (x : ℚ)
    (h : max 0 (x - down_payment cfg) = max 0 (cfg.INITIAL_CASH - down_payment cfg)) (y : ℕ) :
    net_worth_loan (set_initial_cash cfg x) y = net_worth_loan cfg y := by
  simp only [net_worth_loan, investment_value_loan_cash cfg x h, house_value_cash,
    loan_balance_end, am_table, tenure_months]
  rfl

/-- Claim C10: the loan scenario's opening investment balance is
max(0, initialCash - downPayment) with downPayment =
max(0, housePrice - loanAmount), hence never negative, and it is zero
whenever the down payment exceeds the initial cash; the rent scenario
opens with the full initial cash unclamped; and the loan-scenario series
depends on the initial cash only through that clamped opening balance,
so a shortfall never appears anywhere in the loan-scenario simulation. -/
theorem opening_balances (cfg : Config) (x : ℚ)
    (h : max 0 (x - down_payment cfg) = max 0 (cfg.INITIAL_CASH - down_payment cfg)) :
    investment_value_loan cfg 0 =
      max 0 (cfg.INITIAL_CASH - max 0 (cfg.HOUSE_PRICE - cfg.LOAN_AMOUNT)) ∧
    0 ≤ investment_value_loan cfg 0 ∧
    (investment_value_loan cfg 0 = 0 ∨ down_payment cfg ≤ cfg.INITIAL_CASH) ∧
    investment_value_rent cfg 0 = cfg.INITIAL_CASH ∧
    (∀ y, investment_value_loan (set_initial_cash cfg x) y = investment_value_loan cfg y) ∧
    (∀ y, net_worth_loan (set_initial_cash cfg x) y = net_worth_loan cfg y) := by
  refine ⟨rfl, le_max_left 0 _, ?_, rfl, investment_value_loan_cash cfg x h,
    net_worth_loan_cash cfg x h⟩
  rcases le_total (down_payment cfg) cfg.INITIAL_CASH with hle | hle
  · exact Or.inr hle
  · left
    show max 0 (cfg.INITIAL_CASH - down_payment cfg) = 0
    rw [max_eq_left (by linarith)]

theorem opening_balances_witness :
    max 0 ((3:ℚ) - down_payment cfgShort) =
      max 0 (cfgShort.INITIAL_CASH - down_payment cfgShort) ∧
    (investment_value_loan cfgShort 0 =
      max 0 (cfgShort.INITIAL_CASH - max 0 (cfgShort.HOUSE_PRICE - cfgShort.LOAN_AMOUNT)) ∧
    0 ≤ investment_value_loan cfgShort 0 ∧
    (investment_value_loan cfgShort 0 = 0 ∨ down_payment cfgShort ≤ cfgShort.INITIAL_CASH) ∧
    investment_value_rent cfgShort 0 = cfgShort.INITIAL_CASH ∧
    (∀ y, investment_value_loan (set_initial_cash cfgShort 3) y =
      investment_value_loan cfgShort y) ∧
    (∀ y, net_worth_loan (set_initial_cash cfgShort 3) y = net_worth_loan cfgShort y)) := by
  have hmax : max 0 ((3:ℚ) - down_payment cfgShort) =
      max 0 (cfgShort.INITIAL_CASH - down_payment cfgShort) := by
    norm_num [down_payment, cfgShort, max_def]
  exact ⟨hmax, opening_balances cfgShort 3 hmax⟩
